import Mathlib

/-!
Shallow embedding of the dynamic-training-bench repository
(`src/dytb/evaluators/Evaluator.py` and `src/train.py`) and proofs of the
specification claims about it.

Conventions of the embedding:
* Python floats that hold metric values are modelled as rationals `ℚ`;
  the special values `float('inf')` / `float('-inf')` returned as sentinels
  are modelled by the dedicated type `EvalValue`.
* Session-dependent quantities (the per-batch value of `sess.run(metric_fn)`,
  the validation score returned by `eval_model`, whether a step's loss is NaN,
  the restored `global_step`, whether a checkpoint exists at a path) are
  oracles: fields of an environment record, universally quantified in the
  theorems.
* A Python function that can raise returns `Except String _`; a function
  that can `return` early with `None` returns an `Option`.
-/

namespace Dytb

/-- The `InputType` enum of `dytb/inputs/interfaces.py`: the three dataset
splits used by the bench. -/
inductive InputType
  | train
  | validation
  | test
deriving DecidableEq, Repr

/-- A metric descriptor, as described by the `Evaluator.metrics` abstract
property: a dict with keys `name`, `positive_trend_sign`, `model_selection`
and `average` (the graph-building entry `fn` is realised by the
`batchValue` oracle of `EvalEnv`). -/
structure Metric where
  name : String
  positive_trend_sign : Int
  model_selection : Bool
  average : Bool
deriving DecidableEq, Repr

/-- A scalar result of `Evaluator.eval`: either a finite float (modelled as a
rational) or one of the two infinite sentinels `float('inf')`,
`float('-inf')`. -/
inductive EvalValue
  | finite (q : ℚ)
  | posInf
  | negInf
deriving DecidableEq, Repr

/-- The value of `math.copysign(1, x)` for an integer-valued sign `x`: `-1`
when `x` is negative, `1` otherwise. -/
def copysignOne (x : Int) : Int :=
  if x < 0 then -1 else 1

/-- The session/graph environment an `Evaluator.eval` call runs in.
`Aug` is the type of augmentation functions (opaque to the evaluator).

* `numPredictions` — the length of the tail of `self._model.get(...)`
  (`_, *predictions = ...`).
* `numTargets` — the length of the tail of `self.dataset.inputs(...)`
  (`inputs, *targets = ...`).
* `checkpointFound p` — whether `tf.train.get_checkpoint_state(p)` yields a
  usable `model_checkpoint_path`.
* `numExamples t` — `self.dataset.num_examples(t)`.
* `batchValue metric t aug k` — the value of the `k`-th `sess.run(metric_fn)`
  (`k = 1, 2, ...`) for the metric graph built from `metric["fn"]` on the
  split `t` with augmentation `aug`. -/
structure EvalEnv (Aug : Type) where
  numPredictions : Nat
  numTargets : Nat
  checkpointFound : String → Bool
  numExamples : InputType → Nat
  batchValue : Metric → InputType → Option Aug → Nat → ℚ

/-- The iteration count `num_iter = int(math.ceil(num_examples / batch_size))`
for a positive `batch_size`, computed on naturals. -/
def numIter (numExamples batchSize : Nat) : Nat :=
  (numExamples + batchSize - 1) / batchSize

/-- The evaluation `while` loop
`while step < num_iter: step += 1; metric_value_sum += sess.run(metric_fn)`
after `n` iterations (no coordinator stop): returns the pair
`(step, metric_value_sum)`, where `f k` is the value of the `k`-th run. -/
def evalLoop (f : Nat → ℚ) : Nat → Nat × ℚ
  | 0 => (0, 0)
  | n + 1 =>
    ((evalLoop f n).1 + 1, (evalLoop f n).2 + f ((evalLoop f n).1 + 1))

/-- The method `Evaluator.eval(metric, checkpoint_path, input_type,
batch_size, augmentation_fn)`.  Mirrors the control flow of the source:

1. if the prediction and target tails differ in cardinality, print a message
   and return `None`;
2. if no checkpoint is found at `checkpoint_path`, return `inf` when
   `copysign(1, positive_trend_sign) < 0` and `-inf` otherwise;
3. otherwise run `num_iter` batches summing the metric values; divide by the
   final `step` when the metric averages.  A `ZeroDivisionError` inside the
   `try` (from `num_examples / batch_size` with `batch_size = 0`, or from
   `metric_value_sum / step` with `step = 0`) is caught by the handler, so the
   trailing `return avg_metric_value` refers to a never-assigned local:
   modelled as `.error`. -/
def Evaluator.eval {Aug : Type} (env : EvalEnv Aug) (metric : Metric)
    (checkpoint_path : String) (input_type : InputType) (batch_size : Nat)
    (augmentation_fn : Option Aug) : Except String (Option EvalValue) :=
  if env.numPredictions ≠ env.numTargets then
    .ok none
  else if env.checkpointFound checkpoint_path = false then
    .ok (some (if copysignOne metric.positive_trend_sign < 0 then
      .posInf else .negInf))
  else if batch_size = 0 then
    .error "ZeroDivisionError in num_examples / batch_size; avg_metric_value never assigned"
  else
    let r := evalLoop (env.batchValue metric input_type augmentation_fn)
      (numIter (env.numExamples input_type) batch_size)
    if metric.average then
      if r.1 = 0 then
        .error "ZeroDivisionError in metric_value_sum / step; avg_metric_value never assigned"
      else
        .ok (some (.finite (r.2 / (r.1 : ℚ))))
    else
      .ok (some (.finite r.2))

/-- The dictionary returned by `Evaluator.stats`: exactly the three keys
`"train"`, `"validation"`, `"test"`, each holding a metric-name-indexed
dictionary (modelled as an association list in metric order). -/
structure StatsDict (α : Type) where
  train : List (String × α)
  validation : List (String × α)
  test : List (String × α)

/-- The method `Evaluator.stats(checkpoint_path, batch_size,
augmentation_fn)`: for each split, a dict comprehension mapping each metric's
name to
`self.eval(metric, checkpoint_path, split, batch_size, augmentation_fn)`.
`metrics` stands for the abstract `self.metrics` property. -/
def Evaluator.stats {Aug : Type} (env : EvalEnv Aug) (metrics : List Metric)
    (checkpoint_path : String) (batch_size : Nat) (augmentation_fn : Option Aug) :
    StatsDict (Except String (Option EvalValue)) :=
  { train := metrics.map fun m =>
      (m.name, Evaluator.eval env m checkpoint_path InputType.train batch_size augmentation_fn)
    validation := metrics.map fun m =>
      (m.name, Evaluator.eval env m checkpoint_path InputType.validation batch_size augmentation_fn)
    test := metrics.map fun m =>
      (m.name, Evaluator.eval env m checkpoint_path InputType.test batch_size augmentation_fn) }

/-- The environment of a `train.py` training run.

* `old_gs` — the `global_step` value restored before the loop (`old_gs`).
* `max_steps`, `steps_per_epoch` — the `MAX_STEPS` and `STEPS_PER_EPOCH`
  training constants.
* `lossNaN s` — whether `np.isnan(loss_value)` holds for the loss produced by
  `sess.run([train_op, loss])` at step `s`.
* `evalVal s` — the value returned by
  `eval_model(LOG_DIR, InputType.validation)` when it is called at step `s`
  (validation accuracy for `classifier()`, validation error for
  `autoencoder()`). -/
structure TrainEnv where
  old_gs : Nat
  max_steps : Nat
  steps_per_epoch : Nat
  lossNaN : Nat → Bool
  evalVal : Nat → ℚ

/-- The epoch-end / last-step condition guarding checkpointing and
validation in both training loops:
`(step > 0 and step % STEPS_PER_EPOCH == 0) or (step + 1) == MAX_STEPS`. -/
def epochEnd (steps_per_epoch max_steps step : Nat) : Bool :=
  (decide (0 < step) && decide (step % steps_per_epoch = 0))
    || decide (step + 1 = max_steps)

/-- The body of `classifier()`'s `for step in range(old_gs, MAX_STEPS)` loop,
by recursion on the number of remaining iterations (`fuel`), threading the
tracked best validation accuracy `best_va`.  A NaN loss breaks out of the
loop; at an epoch end the best value is replaced exactly when the fresh
validation accuracy strictly exceeds it (and the best model is saved). -/
def classifierLoop (env : TrainEnv) : Nat → Nat → ℚ → ℚ
  | _, 0, best_va => best_va
  | step, fuel + 1, best_va =>
    if env.lossNaN step then best_va
    else
      classifierLoop env (step + 1) fuel
        (if epochEnd env.steps_per_epoch env.max_steps step then
          (if env.evalVal step > best_va then env.evalVal step else best_va)
        else best_va)

/-- The function `classifier()`: runs the loop from `old_gs` to `MAX_STEPS`
starting from `best_va = 0.0` and returns the final `best_va`. -/
def classifier (env : TrainEnv) : ℚ :=
  classifierLoop env env.old_gs (env.max_steps - env.old_gs) 0

/-- The body of `autoencoder()`'s training loop, threading the tracked best
validation error `best_ve`.  `best_ve` lives in `WithTop ℚ`: the initial
`float('inf')` is `⊤`, and the update `if ve_value < best_ve` is the
strict comparison of `WithTop ℚ`. -/
def autoencoderLoop (env : TrainEnv) : Nat → Nat → WithTop ℚ → WithTop ℚ
  | _, 0, best_ve => best_ve
  | step, fuel + 1, best_ve =>
    if env.lossNaN step then best_ve
    else
      autoencoderLoop env (step + 1) fuel
        (if epochEnd env.steps_per_epoch env.max_steps step then
          (if (env.evalVal step : WithTop ℚ) < best_ve then
            (env.evalVal step : WithTop ℚ) else best_ve)
        else best_ve)

/-- The function `autoencoder()`: runs the loop from `old_gs` to `MAX_STEPS`
starting from `best_ve = float('inf')` (that is, `⊤`) and returns the final
`best_ve`. -/
def autoencoder (env : TrainEnv) : WithTop ℚ :=
  autoencoderLoop env env.old_gs (env.max_steps - env.old_gs) ⊤

/-- The list of validation values observed at epoch ends during a run of
either training loop starting at `step` with `fuel` iterations left: the
values `evalVal s` for the steps `s` that satisfy `epochEnd` and are reached
before the first NaN loss. -/
def epochEvals (env : TrainEnv) : Nat → Nat → List ℚ
  | _, 0 => []
  | step, fuel + 1 =>
    if env.lossNaN step then []
    else
      (if epochEnd env.steps_per_epoch env.max_steps step then
        [env.evalVal step] else [])
        ++ epochEvals env (step + 1) fuel

/-- The runtime class of the CLI-selected `MODEL` as `train.py` inspects it
with `isinstance`: a `Classifier`, an `Autoencoder`, or any other object. -/
inductive ModelKind
  | classifierModel
  | autoencoderModel
  | otherModel
deriving DecidableEq, Repr

/-- The `input_type` argument of `eval_model` as a Python value: either an
actual `InputType` instance or anything else. -/
inductive InputTypeArg
  | valid (t : InputType)
  | notInputType
deriving DecidableEq, Repr

/-- The function `eval_model(checkpoint_dir, input_type)`: raises
`ValueError` when `input_type` is not an `InputType` instance, dispatches to
`evaluate.accuracy` / `evaluate.error` (modelled by the oracles `accuracyOf`
and `errorOf`, both functions of the checkpoint directory and the split) for
a `Classifier` / `Autoencoder` `MODEL`, and raises `ValueError` for any other
`MODEL`. -/
def eval_model (accuracyOf errorOf : String → InputType → ℚ) (model : ModelKind)
    (checkpoint_dir : String) (input_type : InputTypeArg) : Except String ℚ :=
  match input_type with
  | .notInputType => .error "Invalid input_type, required a valid InputType"
  | .valid t =>
    match model with
    | .classifierModel => .ok (accuracyOf checkpoint_dir t)
    | .autoencoderModel => .ok (errorOf checkpoint_dir t)
    | .otherModel => .error "Evaluate method not defined for this model type"

/-- The function `train()`: dispatches on the runtime class of `MODEL` to
`classifier()` or `autoencoder()`, and raises `ValueError` for any other
model type. -/
def train (env : TrainEnv) (model : ModelKind) :
    Except String (ℚ ⊕ WithTop ℚ) :=
  match model with
  | .classifierModel => .ok (.inl (classifier env))
  | .autoencoderModel => .ok (.inr (autoencoder env))
  | .otherModel => .error "train method not defined for this model type"

/-- A flat model of the text files the training script touches: each file
name maps to the list of lines it currently holds. -/
def FileContents : Type := String → List String

/-- Opening `fname` in append mode (`'a'`) and writing one line: every other
file keeps its contents, `fname` keeps its previous lines and gains `line`
at the end. -/
def appendLine (fs : FileContents) (fname line : String) : FileContents :=
  fun n => if n = fname then fs n ++ [line] else fs n

/-- One timestamped result line, as produced by
`'{} {}: {} {}\n'.format(datetime.now(), ARGS.model, NAME, value)`. -/
def resultLine (now model name value : String) : String :=
  now ++ " " ++ model ++ ": " ++ name ++ " " ++ value ++ "\n"

/-- The tail of `__main__` after `train()` returns: append one timestamped
line holding the best validation metric to `validation_results.txt`, then
append one timestamped line holding the test evaluation of the best model to
`test_results.txt`.  `now1`/`now2` are the two `datetime.now()` readings,
`vmetric`/`tmetric` the formatted metric values. -/
def mainAppendResults (fs : FileContents)
    (now1 now2 model name vmetric tmetric : String) : FileContents :=
  appendLine
    (appendLine fs "validation_results.txt" (resultLine now1 model name vmetric))
    "test_results.txt" (resultLine now2 model name tmetric)

/-- The attribute state of an `Evaluator` instance: the `_model` and
`_dataset` attributes behind the `model` / `dataset` properties.  `M` and `D`
are the (arbitrary) types of model and dataset objects. -/
structure Evaluator (M D : Type) where
  _model : Option M
  _dataset : Option D

/-- The constructor `Evaluator.__init__`: both attributes start as `None`. -/
def Evaluator.init (M D : Type) : Evaluator M D :=
  { _model := none, _dataset := none }

/-- The `model` property getter. -/
def Evaluator.model {M D : Type} (e : Evaluator M D) : Option M :=
  e._model

/-- The `dataset` property getter. -/
def Evaluator.dataset {M D : Type} (e : Evaluator M D) : Option D :=
  e._dataset

/-- The `model` property setter: `evaluator.model = m`. -/
def Evaluator.setModel {M D : Type} (e : Evaluator M D) (m : M) : Evaluator M D :=
  { e with _model := some m }

/-- The `dataset` property setter: `evaluator.dataset = d`. -/
def Evaluator.setDataset {M D : Type} (e : Evaluator M D) (d : D) : Evaluator M D :=
  { e with _dataset := some d }

/-- An initially empty collection of files. -/
def fs0 : FileContents := fun _ => []

/-- A concrete evaluation environment used to exercise the definitions:
one prediction and one target tail element, every checkpoint path found,
three examples per split, and the `k`-th batch of any metric evaluating
to `k`. -/
def envA : EvalEnv Unit where
  numPredictions := 1
  numTargets := 1
  checkpointFound := fun _ => true
  numExamples := fun _ => 3
  batchValue := fun _ _ _ k => (k : ℚ)

/-- The environment `envA` with no checkpoint anywhere. -/
def envNoCkpt : EvalEnv Unit :=
  { envA with checkpointFound := fun _ => false }

/-- The environment `envA` with mismatched prediction/target cardinality. -/
def envMismatch : EvalEnv Unit :=
  { envA with numPredictions := 2 }

/-- The environment `envA` with an empty dataset. -/
def envEmpty : EvalEnv Unit :=
  { envA with numExamples := fun _ => 0 }

/-- A concrete averaging metric. -/
def metricAvg : Metric :=
  { name := "accuracy", positive_trend_sign := 1, model_selection := true,
    average := true }

/-- A concrete summing metric whose positive trend is downward. -/
def metricSum : Metric :=
  { name := "error", positive_trend_sign := -1, model_selection := true,
    average := false }

/-- A concrete training environment: four steps from a fresh start, two steps
per epoch, no NaN losses, validation value `s + 1` at step `s`. -/
def trainEnvA : TrainEnv where
  old_gs := 0
  max_steps := 4
  steps_per_epoch := 2
  lossNaN := fun _ => false
  evalVal := fun s => (s : ℚ) + 1

/-- The training environment `trainEnvA` with every loss NaN. -/
def trainEnvNaN : TrainEnv :=
  { trainEnvA with lossNaN := fun _ => true }

theorem evalLoop_fst (f : Nat → ℚ) (n : Nat) : (evalLoop f n).1 = n := by
  induction n with
  | zero => rfl
  | succ k ih => simp [evalLoop, ih]

theorem evalLoop_snd (f : Nat → ℚ) (n : Nat) :
    (evalLoop f n).2 = ∑ i ∈ Finset.range n, f (i + 1) := by
  induction n with
  | zero => rfl
  | succ k ih => simp [evalLoop, ih, evalLoop_fst, Finset.sum_range_succ]

theorem le_numIter_mul (n b : Nat) (hb : 0 < b) : n ≤ numIter n b * b := by
  unfold numIter
  have h := Nat.div_add_mod (n + b - 1) b
  have hr : (n + b - 1) % b < b := Nat.mod_lt _ hb
  rw [mul_comm]
  generalize hR : (n + b - 1) % b = R at h hr
  generalize hP : b * ((n + b - 1) / b) = P at h
  omega

theorem numIter_mul_lt (n b : Nat) (hb : 0 < b) : numIter n b * b < n + b := by
  unfold numIter
  have h := Nat.div_mul_le_self (n + b - 1) b
  generalize hP : (n + b - 1) / b * b = P at h ⊢
  omega

theorem numIter_pos (n b : Nat) (hn : 0 < n) (hb : 0 < b) : 0 < numIter n b := by
  unfold numIter
  exact Nat.div_pos (by omega) hb

theorem numIter_zero (b : Nat) : numIter 0 b = 0 := by
  unfold numIter
  rcases Nat.eq_zero_or_pos b with rfl | hb
  · rfl
  · exact Nat.div_eq_of_lt (by omega)

theorem numIter_eq_ceil (n b : Nat) (hb : 0 < b) :
    (numIter n b : ℤ) = ⌈(n : ℚ) / (b : ℚ)⌉ := by
  have hbQ : (0 : ℚ) < (b : ℚ) := by exact_mod_cast hb
  have h1 : (n : ℚ) ≤ (numIter n b : ℚ) * (b : ℚ) := by
    exact_mod_cast le_numIter_mul n b hb
  have h2 : (numIter n b : ℚ) * (b : ℚ) < (n : ℚ) + (b : ℚ) := by
    exact_mod_cast numIter_mul_lt n b hb
  symm
  rw [Int.ceil_eq_iff]
  constructor
  · push_cast
    rw [lt_div_iff₀ hbQ]
    have h3 : ((numIter n b : ℚ) - 1) * (b : ℚ)
        = (numIter n b : ℚ) * (b : ℚ) - (b : ℚ) := by ring
    rw [h3]
    linarith
  · push_cast
    rw [div_le_iff₀ hbQ]
    exact h1

theorem copysignOne_neg_iff (x : Int) : copysignOne x < 0 ↔ x < 0 := by
  unfold copysignOne
  rcases lt_or_ge x 0 with h | h
  · rw [if_pos h]
    simp [h]
  · rw [if_neg (not_lt.mpr h)]
    simp [not_lt.mpr h]

theorem le_foldl_max {α : Type} [LinearOrder α] (l : List α) :
    ∀ b : α, b ≤ l.foldl max b := by
  induction l with
  | nil => intro b; exact le_refl b
  | cons x xs ih =>
    intro b
    rw [List.foldl_cons]
    exact le_trans (le_max_left b x) (ih (max b x))

theorem foldl_max_choice {α : Type} [LinearOrder α] (l : List α) :
    ∀ b : α, l.foldl max b = b ∨ l.foldl max b ∈ l := by
  induction l with
  | nil => intro b; exact Or.inl rfl
  | cons x xs ih =>
    intro b
    rw [List.foldl_cons]
    rcases ih (max b x) with h | h
    · rcases max_choice b x with hb | hx
      · exact Or.inl (by rw [h, hb])
      · exact Or.inr (by rw [h, hx]; exact List.mem_cons_self x xs)
    · exact Or.inr (List.mem_cons_of_mem x h)

theorem le_foldl_max_of_mem {α : Type} [LinearOrder α] (l : List α) (v : α) :
    v ∈ l → ∀ b : α, v ≤ l.foldl max b := by
  induction l with
  | nil => intro h; cases h
  | cons x xs ih =>
    intro h b
    rw [List.foldl_cons]
    rcases List.mem_cons.mp h with rfl | hx
    · exact le_trans (le_max_right b v) (le_foldl_max xs (max b v))
    · exact ih hx (max b x)

theorem foldl_min_le {α : Type} [LinearOrder α] (l : List α) :
    ∀ b : α, l.foldl min b ≤ b := by
  induction l with
  | nil => intro b; exact le_refl b
  | cons x xs ih =>
    intro b
    rw [List.foldl_cons]
    exact le_trans (ih (min b x)) (min_le_left b x)

theorem foldl_min_choice {α : Type} [LinearOrder α] (l : List α) :
    ∀ b : α, l.foldl min b = b ∨ l.foldl min b ∈ l := by
  induction l with
  | nil => intro b; exact Or.inl rfl
  | cons x xs ih =>
    intro b
    rw [List.foldl_cons]
    rcases ih (min b x) with h | h
    · rcases min_choice b x with hb | hx
      · exact Or.inl (by rw [h, hb])
      · exact Or.inr (by rw [h, hx]; exact List.mem_cons_self x xs)
    · exact Or.inr (List.mem_cons_of_mem x h)

theorem foldl_min_le_of_mem {α : Type} [LinearOrder α] (l : List α) (v : α) :
    v ∈ l → ∀ b : α, l.foldl min b ≤ v := by
  induction l with
  | nil => intro h; cases h
  | cons x xs ih =>
    intro h b
    rw [List.foldl_cons]
    rcases List.mem_cons.mp h with rfl | hx
    · exact le_trans (foldl_min_le xs (min b v)) (min_le_right b v)
    · exact ih hx (min b x)

theorem foldl_max_zero_mem (l : List ℚ) (hl : l ≠ [])
    (hnn : ∀ v ∈ l, 0 ≤ v) : l.foldl max 0 ∈ l := by
  cases l with
  | nil => exact absurd rfl hl
  | cons x xs =>
    rw [List.foldl_cons, max_eq_right (hnn x (List.mem_cons_self x xs))]
    rcases foldl_max_choice xs x with h | h
    · rw [h]; exact List.mem_cons_self x xs
    · exact List.mem_cons_of_mem x h

theorem foldl_min_top_mem (l : List (WithTop ℚ)) (hl : l ≠ []) :
    l.foldl min ⊤ ∈ l := by
  cases l with
  | nil => exact absurd rfl hl
  | cons x xs =>
    rw [List.foldl_cons, min_eq_right le_top]
    rcases foldl_min_choice xs x with h | h
    · rw [h]; exact List.mem_cons_self x xs
    · exact List.mem_cons_of_mem x h

theorem if_gt_eq_max {α : Type} [LinearOrder α] (b v : α) :
    (if v > b then v else b) = max b v := by
  rcases lt_or_ge b v with h | h
  · rw [if_pos h, max_eq_right h.le]
  · rw [if_neg (not_lt.mpr h), max_eq_left h]

theorem if_lt_eq_min {α : Type} [LinearOrder α] (b v : α) :
    (if v < b then v else b) = min b v := by
  rcases lt_or_ge v b with h | h
  · rw [if_pos h, min_eq_right h.le]
  · rw [if_neg (not_lt.mpr h), min_eq_left h]

theorem epochEvals_shape (env : TrainEnv) :
    ∀ fuel step v, v ∈ epochEvals env step fuel → ∃ s, v = env.evalVal s := by
  intro fuel
  induction fuel with
  | zero =>
    intro step v h
    simp [epochEvals] at h
  | succ k ih =>
    intro step v h
    by_cases hn : env.lossNaN step
    · simp [epochEvals, hn] at h
    · by_cases he : epochEnd env.steps_per_epoch env.max_steps step
      · simp only [epochEvals, hn, he, if_true, if_false, Bool.false_eq_true,
          List.singleton_append, List.mem_cons] at h
        rcases h with h | h
        · exact ⟨step, h⟩
        · exact ih _ _ h
      · simp only [epochEvals, hn, he, if_true, if_false, Bool.false_eq_true,
          List.nil_append] at h
        exact ih _ _ h

theorem classifierLoop_eq_foldl (env : TrainEnv) :
    ∀ fuel step best, classifierLoop env step fuel best
      = (epochEvals env step fuel).foldl max best := by
  intro fuel
  induction fuel with
  | zero => intro step best; rfl
  | succ k ih =>
    intro step best
    by_cases hn : env.lossNaN step
    · simp [classifierLoop, epochEvals, hn]
    · by_cases he : epochEnd env.steps_per_epoch env.max_steps step
      · simp only [classifierLoop, epochEvals, hn, he, if_true, if_false,
          Bool.false_eq_true, List.singleton_append, List.foldl_cons]
        rw [ih, if_gt_eq_max]
      · simp only [classifierLoop, epochEvals, hn, he, if_true, if_false,
          Bool.false_eq_true, List.nil_append]
        exact ih _ _

theorem autoencoderLoop_eq_foldl (env : TrainEnv) :
    ∀ fuel step best, autoencoderLoop env step fuel best
      = (epochEvals env step fuel).foldl
          (fun b v => min b ((v : ℚ) : WithTop ℚ)) best := by
  intro fuel
  induction fuel with
  | zero => intro step best; rfl
  | succ k ih =>
    intro step best
    by_cases hn : env.lossNaN step
    · simp [autoencoderLoop, epochEvals, hn]
    · by_cases he : epochEnd env.steps_per_epoch env.max_steps step
      · simp only [autoencoderLoop, epochEvals, hn, he, if_true, if_false,
          Bool.false_eq_true, List.singleton_append, List.foldl_cons]
        rw [ih, if_lt_eq_min]
      · simp only [autoencoderLoop, epochEvals, hn, he, if_true, if_false,
          Bool.false_eq_true, List.nil_append]
        exact ih _ _

theorem autoencoderLoop_eq_foldl_map (env : TrainEnv) (fuel step : Nat)
    (best : WithTop ℚ) :
    autoencoderLoop env step fuel best
      = ((epochEvals env step fuel).map ((↑·) : ℚ → WithTop ℚ)).foldl min best := by
  rw [autoencoderLoop_eq_foldl, List.foldl_map]

/-- C1: for every metric, dataset and `batch_size > 0`, when a checkpoint is
found and predictions match targets in cardinality, `Evaluator.eval` runs
exactly `num_iter = ceil(dataset.num_examples(input_type) / batch_size)`
batches (absent a coordinator stop, which the embedding has none of) and
returns the arithmetic mean of the per-batch metric values when
`metric["average"]` is true, and their sum when it is false.  The mean case
presupposes at least one example, since the mean of zero batches is the
division by zero analysed separately. -/
theorem eval_runs_numIter_and_aggregates {Aug : Type} (env : EvalEnv Aug)
    (metric : Metric) (cp : String) (it : InputType) (bs : Nat)
    (aug : Option Aug) (hbs : 0 < bs)
    (hck : env.checkpointFound cp = true)
    (hcard : env.numPredictions = env.numTargets)
    (havg : metric.average = true → 0 < env.numExamples it) :
    (numIter (env.numExamples it) bs : ℤ)
        = ⌈(env.numExamples it : ℚ) / (bs : ℚ)⌉
    ∧ (evalLoop (env.batchValue metric it aug)
        (numIter (env.numExamples it) bs)).1
        = numIter (env.numExamples it) bs
    ∧ Evaluator.eval env metric cp it bs aug
      = .ok (some (.finite
          (if metric.average then
            (∑ i ∈ Finset.range (numIter (env.numExamples it) bs),
              env.batchValue metric it aug (i + 1))
              / ((numIter (env.numExamples it) bs : ℚ))
          else
            ∑ i ∈ Finset.range (numIter (env.numExamples it) bs),
              env.batchValue metric it aug (i + 1)))) := by
  refine ⟨numIter_eq_ceil _ _ hbs, evalLoop_fst _ _, ?_⟩
  unfold Evaluator.eval
  rw [if_neg (by simp [hcard]), if_neg (by simp [hck]),
      if_neg (Nat.pos_iff_ne_zero.mp hbs)]
  cases ha : metric.average with
  | false => simp [ha, evalLoop_snd]
  | true =>
    have hpos := numIter_pos _ _ (havg ha) hbs
    simp [ha, evalLoop_fst, evalLoop_snd, Nat.pos_iff_ne_zero.mp hpos]

/-- C2: for every metric, if no checkpoint file is found in
`checkpoint_path` (and the cardinality guard passes), `Evaluator.eval` runs
no batches — the result does not depend on the per-batch value oracle at
all — and returns a sentinel: positive infinity when the sign of
`metric["positive_trend_sign"]` is negative, negative infinity otherwise. -/
theorem eval_no_checkpoint_sentinel {Aug : Type} (env : EvalEnv Aug)
    (metric : Metric) (cp : String) (it : InputType) (bs : Nat)
    (aug : Option Aug)
    (hcard : env.numPredictions = env.numTargets)
    (hck : env.checkpointFound cp = false) :
    ∀ f : Metric → InputType → Option Aug → Nat → ℚ,
      Evaluator.eval { env with batchValue := f } metric cp it bs aug
        = .ok (some (if metric.positive_trend_sign < 0 then
            EvalValue.posInf else EvalValue.negInf)) := by
  intro f
  unfold Evaluator.eval
  rw [if_neg (by simp [hcard]), if_pos (by simp [hck])]
  rcases lt_or_ge metric.positive_trend_sign 0 with h | h
  · rw [if_pos ((copysignOne_neg_iff _).mpr h), if_pos h]
  · rw [if_neg (by rw [copysignOne_neg_iff]; exact not_lt.mpr h),
        if_neg (not_lt.mpr h)]

/-- C4: for every model and dataset, if the number of prediction outputs
differs from the number of target outputs, `Evaluator.eval` prints a message
and returns early with `None` — whatever the checkpoint state and per-batch
values would have been, so no checkpoint is restored and no batch runs. -/
theorem eval_cardinality_mismatch_returns_none {Aug : Type} (env : EvalEnv Aug)
    (metric : Metric) (cp : String) (it : InputType) (bs : Nat)
    (aug : Option Aug)
    (hcard : env.numPredictions ≠ env.numTargets) :
    ∀ (ck : String → Bool) (f : Metric → InputType → Option Aug → Nat → ℚ),
      Evaluator.eval { env with checkpointFound := ck, batchValue := f }
        metric cp it bs aug = .ok none := by
  intro ck f
  simp [Evaluator.eval, hcard]

/-- C8: `Evaluator.eval` is only total when at least one batch runs.  If
`dataset.num_examples(input_type)` is 0 then `num_iter = 0`, the loop leaves
`step = 0`, and a metric with `average = true` divides by zero; the
exception lands in the coordinator handler and the trailing
`return avg_metric_value` refers to a never-assigned local, so the call
errors instead of returning a value.  Under the precondition
`num_examples(input_type) ≥ 1` and `batch_size ≥ 1` this failure branch is
unreachable and the call returns a finite value. -/
theorem eval_requires_at_least_one_batch {Aug : Type} (env : EvalEnv Aug)
    (metric : Metric) (cp : String) (it : InputType) (bs : Nat)
    (aug : Option Aug)
    (hcard : env.numPredictions = env.numTargets)
    (hck : env.checkpointFound cp = true) :
    numIter 0 bs = 0
    ∧ (metric.average = true → env.numExamples it = 0 →
        ∃ msg, Evaluator.eval env metric cp it bs aug = .error msg)
    ∧ (1 ≤ env.numExamples it → 1 ≤ bs →
        ∃ q, Evaluator.eval env metric cp it bs aug
          = .ok (some (.finite q))) := by
  refine ⟨numIter_zero bs, ?_, ?_⟩
  · intro ha h0
    unfold Evaluator.eval
    rw [if_neg (by simp [hcard]), if_neg (by simp [hck])]
    rcases Nat.eq_zero_or_pos bs with rfl | hbs
    · exact ⟨_, rfl⟩
    · rw [if_neg (Nat.pos_iff_ne_zero.mp hbs)]
      refine ⟨"ZeroDivisionError in metric_value_sum / step; avg_metric_value never assigned", ?_⟩
      have hz : numIter (env.numExamples it) bs = 0 := by
        rw [h0]; exact numIter_zero bs
      simp [ha, evalLoop_fst, hz]
  · intro hn hbs
    unfold Evaluator.eval
    rw [if_neg (by simp [hcard]), if_neg (by simp [hck]),
        if_neg (Nat.pos_iff_ne_zero.mp hbs)]
    have hpos := numIter_pos _ _ hn hbs
    cases ha : metric.average with
    | false =>
      refine ⟨(evalLoop (env.batchValue metric it aug)
        (numIter (env.numExamples it) bs)).2, ?_⟩
      simp [ha]
    | true =>
      refine ⟨(evalLoop (env.batchValue metric it aug)
          (numIter (env.numExamples it) bs)).2
          / ((numIter (env.numExamples it) bs : ℚ)), ?_⟩
      simp [ha, evalLoop_fst, Nat.pos_iff_ne_zero.mp hpos]

/-- C3: `classifier()` returns the maximum validation accuracy observed over
all epoch-end evaluations (0.0 if none occurred): the tracked `best_va`
starts at 0.0, is updated exactly when a new validation accuracy strictly
exceeds it — so the result is the `max`-fold of the observed values, is an
upper bound of them, is one of them when any occurred (accuracies being
nonnegative), and the loop never decreases the tracked best.  Dually,
`autoencoder()` returns the minimum validation error, starting from positive
infinity (`⊤`) and updated exactly on a strict decrease. -/
theorem classifier_max_autoencoder_min (env : TrainEnv)
    (hnn : ∀ s, 0 ≤ env.evalVal s) :
    (epochEvals env env.old_gs (env.max_steps - env.old_gs) = [] →
      classifier env = 0)
    ∧ (∀ v ∈ epochEvals env env.old_gs (env.max_steps - env.old_gs),
        v ≤ classifier env)
    ∧ (epochEvals env env.old_gs (env.max_steps - env.old_gs) ≠ [] →
        classifier env ∈ epochEvals env env.old_gs (env.max_steps - env.old_gs))
    ∧ (∀ step fuel best_va, best_va ≤ classifierLoop env step fuel best_va)
    ∧ (epochEvals env env.old_gs (env.max_steps - env.old_gs) = [] →
        autoencoder env = ⊤)
    ∧ (∀ v ∈ epochEvals env env.old_gs (env.max_steps - env.old_gs),
        autoencoder env ≤ ((v : ℚ) : WithTop ℚ))
    ∧ (epochEvals env env.old_gs (env.max_steps - env.old_gs) ≠ [] →
        ∃ v ∈ epochEvals env env.old_gs (env.max_steps - env.old_gs),
          autoencoder env = ((v : ℚ) : WithTop ℚ))
    ∧ (∀ step fuel best_ve, autoencoderLoop env step fuel best_ve ≤ best_ve) := by
  have hc : classifier env
      = (epochEvals env env.old_gs (env.max_steps - env.old_gs)).foldl max 0 := by
    unfold classifier
    rw [classifierLoop_eq_foldl]
  have hamap : autoencoder env
      = ((epochEvals env env.old_gs (env.max_steps - env.old_gs)).map
          ((↑·) : ℚ → WithTop ℚ)).foldl min ⊤ := by
    unfold autoencoder
    rw [autoencoderLoop_eq_foldl_map]
  refine ⟨?_, ?_, ?_, ?_, ?_, ?_, ?_, ?_⟩
  · intro h
    rw [hc, h]
    rfl
  · intro v hv
    rw [hc]
    exact le_foldl_max_of_mem _ _ hv 0
  · intro h
    rw [hc]
    apply foldl_max_zero_mem _ h
    intro v hv
    obtain ⟨s, rfl⟩ := epochEvals_shape env _ _ v hv
    exact hnn s
  · intro step fuel b
    rw [classifierLoop_eq_foldl]
    exact le_foldl_max _ b
  · intro h
    rw [hamap, h]
    rfl
  · intro v hv
    rw [hamap]
    exact foldl_min_le_of_mem _ _ (List.mem_map_of_mem _ hv) ⊤
  · intro h
    have hm : (epochEvals env env.old_gs (env.max_steps - env.old_gs)).map
        ((↑·) : ℚ → WithTop ℚ) ≠ [] := by
      intro hmap
      apply h
      simpa using hmap
    have hmem := foldl_min_top_mem _ hm
    rw [← hamap] at hmem
    obtain ⟨v, hv, he⟩ := List.mem_map.mp hmem
    exact ⟨v, hv, he.symm⟩
  · intro step fuel b
    rw [autoencoderLoop_eq_foldl_map]
    exact foldl_min_le _ b

/-- C5: in both training loops, a NaN loss at the current step terminates
the loop immediately (with a printed message), and the function still
returns the best validation value recorded so far: with at least one
iteration left, the loop returns the incoming tracked best unchanged. -/
theorem nan_loss_terminates (env : TrainEnv) (step fuel : Nat)
    (h : env.lossNaN step = true) :
    (∀ best_va : ℚ, classifierLoop env step (fuel + 1) best_va = best_va)
    ∧ (∀ best_ve : WithTop ℚ,
        autoencoderLoop env step (fuel + 1) best_ve = best_ve) := by
  constructor
  · intro b
    simp [classifierLoop, h]
  · intro b
    simp [autoencoderLoop, h]

/-- C6: `stats(checkpoint_path, batch_size)` returns a dictionary with
exactly the keys `"train"`, `"validation"` and `"test"` (the three fields of
`StatsDict`), where each split maps every metric name in the metrics list to
the result of `eval` on that metric for the corresponding `InputType`, with
the same `checkpoint_path`, `batch_size` and `augmentation_fn`. -/
theorem stats_keys_and_entries {Aug : Type} (env : EvalEnv Aug)
    (metrics : List Metric) (cp : String) (bs : Nat) (aug : Option Aug) :
    ((Evaluator.stats env metrics cp bs aug).train.map Prod.fst
        = metrics.map Metric.name
      ∧ (Evaluator.stats env metrics cp bs aug).validation.map Prod.fst
        = metrics.map Metric.name
      ∧ (Evaluator.stats env metrics cp bs aug).test.map Prod.fst
        = metrics.map Metric.name)
    ∧ ∀ m ∈ metrics,
        (m.name, Evaluator.eval env m cp InputType.train bs aug)
            ∈ (Evaluator.stats env metrics cp bs aug).train
        ∧ (m.name, Evaluator.eval env m cp InputType.validation bs aug)
            ∈ (Evaluator.stats env metrics cp bs aug).validation
        ∧ (m.name, Evaluator.eval env m cp InputType.test bs aug)
            ∈ (Evaluator.stats env metrics cp bs aug).test := by
  constructor
  · refine ⟨?_, ?_, ?_⟩ <;>
      simp [Evaluator.stats, List.map_map, Function.comp]
  · intro m hm
    exact ⟨List.mem_map_of_mem _ hm, List.mem_map_of_mem _ hm,
      List.mem_map_of_mem _ hm⟩

/-- C7: after training completes, the script appends exactly one timestamped
line to `validation_results.txt` (the best validation metric) and exactly
one timestamped line to `test_results.txt` (the test-set evaluation of the
best model), leaving previously existing contents of both files — and every
other file — unchanged. -/
theorem main_appends_one_line_each (fs : FileContents)
    (now1 now2 model name vmetric tmetric : String) :
    mainAppendResults fs now1 now2 model name vmetric tmetric
        "validation_results.txt"
      = fs "validation_results.txt" ++ [resultLine now1 model name vmetric]
    ∧ mainAppendResults fs now1 now2 model name vmetric tmetric
        "test_results.txt"
      = fs "test_results.txt" ++ [resultLine now2 model name tmetric]
    ∧ ∀ f : String, f ≠ "validation_results.txt" → f ≠ "test_results.txt" →
        mainAppendResults fs now1 now2 model name vmetric tmetric f = fs f := by
  refine ⟨?_, ?_, ?_⟩
  · simp [mainAppendResults, appendLine]
  · simp [mainAppendResults, appendLine]
  · intro f h1 h2
    simp [mainAppendResults, appendLine, h1, h2]

/-- C9: on a freshly constructed `Evaluator` both the `model` and `dataset`
properties are `None`; setting the model makes the `model` property return
exactly the assigned value and leaves `dataset` unchanged, and symmetrically
for `dataset` — a setter/getter round-trip with no cross-interference. -/
theorem evaluator_property_roundtrip (M D : Type) (e : Evaluator M D)
    (m : M) (d : D) :
    (Evaluator.init M D).model = none
    ∧ (Evaluator.init M D).dataset = none
    ∧ (e.setModel m).model = some m
    ∧ (e.setModel m).dataset = e.dataset
    ∧ (e.setDataset d).dataset = some d
    ∧ (e.setDataset d).model = e.model :=
  ⟨rfl, rfl, rfl, rfl, rfl, rfl⟩

/-- C10: `eval_model` raises `ValueError`, before performing any evaluation
(the result does not depend on the evaluation oracles), for every
`input_type` that is not an `InputType` instance and for every `MODEL` that
is neither a `Classifier` nor an `Autoencoder`; `train()` likewise raises
`ValueError` for a `MODEL` of neither type. -/
theorem eval_model_and_train_valueerrors
    (accuracyOf errorOf : String → InputType → ℚ) (cp : String)
    (env : TrainEnv) :
    (∀ model : ModelKind,
      eval_model accuracyOf errorOf model cp InputTypeArg.notInputType
        = .error "Invalid input_type, required a valid InputType")
    ∧ (∀ t : InputType,
        eval_model accuracyOf errorOf ModelKind.otherModel cp
            (InputTypeArg.valid t)
          = .error "Evaluate method not defined for this model type")
    ∧ train env ModelKind.otherModel
      = .error "train method not defined for this model type" := by
  refine ⟨?_, ?_, rfl⟩
  · intro model
    rfl
  · intro t
    rfl

/-- Witness for the C1 theorem: three examples, batch size two, averaging
metric, per-batch values 1 and 2 — two batches, mean 3/2. -/
theorem eval_runs_numIter_and_aggregates_witness :
    (0 < 2 ∧ envA.checkpointFound "ckpt" = true
      ∧ envA.numPredictions = envA.numTargets
      ∧ (metricAvg.average = true → 0 < envA.numExamples InputType.train))
    ∧ ((numIter (envA.numExamples InputType.train) 2 : ℤ)
          = ⌈(envA.numExamples InputType.train : ℚ) / (2 : ℚ)⌉
        ∧ (evalLoop (envA.batchValue metricAvg InputType.train none)
            (numIter (envA.numExamples InputType.train) 2)).1
          = numIter (envA.numExamples InputType.train) 2
        ∧ Evaluator.eval envA metricAvg "ckpt" InputType.train 2 none
          = .ok (some (.finite
              (if metricAvg.average then
                (∑ i ∈ Finset.range (numIter (envA.numExamples InputType.train) 2),
                  envA.batchValue metricAvg InputType.train none (i + 1))
                  / ((numIter (envA.numExamples InputType.train) 2 : ℚ))
              else
                ∑ i ∈ Finset.range (numIter (envA.numExamples InputType.train) 2),
                  envA.batchValue metricAvg InputType.train none (i + 1))))) :=
  ⟨⟨by decide, rfl, rfl, fun _ => by decide⟩,
    eval_runs_numIter_and_aggregates envA metricAvg "ckpt" InputType.train 2 none
      (by decide) rfl rfl (fun _ => by decide)⟩

/-- Witness for the C2 theorem: no checkpoint anywhere and a metric with
negative positive-trend sign, so the sentinel is positive infinity. -/
theorem eval_no_checkpoint_sentinel_witness :
    (envNoCkpt.numPredictions = envNoCkpt.numTargets
      ∧ envNoCkpt.checkpointFound "ckpt" = false)
    ∧ ∀ f : Metric → InputType → Option Unit → Nat → ℚ,
        Evaluator.eval { envNoCkpt with batchValue := f } metricSum "ckpt"
            InputType.test 1 none
          = .ok (some (if metricSum.positive_trend_sign < 0 then
              EvalValue.posInf else EvalValue.negInf)) :=
  ⟨⟨rfl, rfl⟩,
    eval_no_checkpoint_sentinel envNoCkpt metricSum "ckpt" InputType.test 1 none
      rfl rfl⟩

/-- Witness for the C3 theorem at a concrete four-step run with nonnegative
validation values. -/
theorem classifier_max_autoencoder_min_witness :
    (∀ s, 0 ≤ trainEnvA.evalVal s)
    ∧ ((epochEvals trainEnvA trainEnvA.old_gs
          (trainEnvA.max_steps - trainEnvA.old_gs) = [] →
        classifier trainEnvA = 0)
      ∧ (∀ v ∈ epochEvals trainEnvA trainEnvA.old_gs
            (trainEnvA.max_steps - trainEnvA.old_gs),
          v ≤ classifier trainEnvA)
      ∧ (epochEvals trainEnvA trainEnvA.old_gs
            (trainEnvA.max_steps - trainEnvA.old_gs) ≠ [] →
          classifier trainEnvA ∈ epochEvals trainEnvA trainEnvA.old_gs
            (trainEnvA.max_steps - trainEnvA.old_gs))
      ∧ (∀ step fuel best_va,
          best_va ≤ classifierLoop trainEnvA step fuel best_va)
      ∧ (epochEvals trainEnvA trainEnvA.old_gs
            (trainEnvA.max_steps - trainEnvA.old_gs) = [] →
          autoencoder trainEnvA = ⊤)
      ∧ (∀ v ∈ epochEvals trainEnvA trainEnvA.old_gs
            (trainEnvA.max_steps - trainEnvA.old_gs),
          autoencoder trainEnvA ≤ ((v : ℚ) : WithTop ℚ))
      ∧ (epochEvals trainEnvA trainEnvA.old_gs
            (trainEnvA.max_steps - trainEnvA.old_gs) ≠ [] →
          ∃ v ∈ epochEvals trainEnvA trainEnvA.old_gs
              (trainEnvA.max_steps - trainEnvA.old_gs),
            autoencoder trainEnvA = ((v : ℚ) : WithTop ℚ))
      ∧ (∀ step fuel best_ve,
          autoencoderLoop trainEnvA step fuel best_ve ≤ best_ve)) :=
  ⟨fun s => by simp only [trainEnvA]; positivity,
    classifier_max_autoencoder_min trainEnvA
      (fun s => by simp only [trainEnvA]; positivity)⟩

/-- Witness for the C4 theorem: two predictions against one target. -/
theorem eval_cardinality_mismatch_returns_none_witness :
    envMismatch.numPredictions ≠ envMismatch.numTargets
    ∧ ∀ (ck : String → Bool) (f : Metric → InputType → Option Unit → Nat → ℚ),
        Evaluator.eval { envMismatch with checkpointFound := ck, batchValue := f }
          metricAvg "ckpt" InputType.validation 2 none = .ok none :=
  ⟨by decide,
    eval_cardinality_mismatch_returns_none envMismatch metricAvg "ckpt"
      InputType.validation 2 none (by decide)⟩

/-- Witness for the C5 theorem: every loss NaN, so step 0 already breaks. -/
theorem nan_loss_terminates_witness :
    trainEnvNaN.lossNaN 0 = true
    ∧ ((∀ best_va : ℚ, classifierLoop trainEnvNaN 0 (3 + 1) best_va = best_va)
      ∧ (∀ best_ve : WithTop ℚ,
          autoencoderLoop trainEnvNaN 0 (3 + 1) best_ve = best_ve)) :=
  ⟨rfl, nan_loss_terminates trainEnvNaN 0 3 rfl⟩

/-- Witness for the C6 theorem on a two-metric evaluator. -/
theorem stats_keys_and_entries_witness :
    (((Evaluator.stats envA [metricAvg, metricSum] "ckpt" 2 none).train.map Prod.fst
        = [metricAvg, metricSum].map Metric.name
      ∧ (Evaluator.stats envA [metricAvg, metricSum] "ckpt" 2 none).validation.map Prod.fst
        = [metricAvg, metricSum].map Metric.name
      ∧ (Evaluator.stats envA [metricAvg, metricSum] "ckpt" 2 none).test.map Prod.fst
        = [metricAvg, metricSum].map Metric.name)
    ∧ ∀ m ∈ [metricAvg, metricSum],
        (m.name, Evaluator.eval envA m "ckpt" InputType.train 2 none)
            ∈ (Evaluator.stats envA [metricAvg, metricSum] "ckpt" 2 none).train
        ∧ (m.name, Evaluator.eval envA m "ckpt" InputType.validation 2 none)
            ∈ (Evaluator.stats envA [metricAvg, metricSum] "ckpt" 2 none).validation
        ∧ (m.name, Evaluator.eval envA m "ckpt" InputType.test 2 none)
            ∈ (Evaluator.stats envA [metricAvg, metricSum] "ckpt" 2 none).test) :=
  stats_keys_and_entries envA [metricAvg, metricSum] "ckpt" 2 none

/-- Witness for the C7 theorem on an initially empty file system. -/
theorem main_appends_one_line_each_witness :
    mainAppendResults fs0 "t1" "t2" "vgg" "run1" "0.9" "0.8"
        "validation_results.txt"
      = fs0 "validation_results.txt" ++ [resultLine "t1" "vgg" "run1" "0.9"]
    ∧ mainAppendResults fs0 "t1" "t2" "vgg" "run1" "0.9" "0.8"
        "test_results.txt"
      = fs0 "test_results.txt" ++ [resultLine "t2" "vgg" "run1" "0.8"]
    ∧ ∀ f : String, f ≠ "validation_results.txt" → f ≠ "test_results.txt" →
        mainAppendResults fs0 "t1" "t2" "vgg" "run1" "0.9" "0.8" f = fs0 f :=
  main_appends_one_line_each fs0 "t1" "t2" "vgg" "run1" "0.9" "0.8"

/-- Witness for the C8 theorem on an empty dataset. -/
theorem eval_requires_at_least_one_batch_witness :
    (envEmpty.numPredictions = envEmpty.numTargets
      ∧ envEmpty.checkpointFound "ckpt" = true)
    ∧ (numIter 0 2 = 0
      ∧ (metricAvg.average = true → envEmpty.numExamples InputType.train = 0 →
          ∃ msg, Evaluator.eval envEmpty metricAvg "ckpt" InputType.train 2 none
            = .error msg)
      ∧ (1 ≤ envEmpty.numExamples InputType.train → 1 ≤ 2 →
          ∃ q, Evaluator.eval envEmpty metricAvg "ckpt" InputType.train 2 none
            = .ok (some (.finite q)))) :=
  ⟨⟨rfl, rfl⟩,
    eval_requires_at_least_one_batch envEmpty metricAvg "ckpt" InputType.train 2
      none rfl rfl⟩

end Dytb
